import Mathlib

/-!
Verification of the data-plot visualizer microservice (src/app.py) against
its specification.  The service is embedded shallowly:

* JSON values decoded from a request body are modelled by `JVal`.
  Python `None` and JSON `null` are both `JVal.null` (the code never
  distinguishes them: `payload.get(k)` returns `None` for an absent key and
  for an explicit `null` value alike).
* Python `float(v)` is modelled by `py_float` (numbers, booleans and plain
  decimal string literals convert; `None`, lists and dicts raise).
* The pure validator `_validate_plot_request` is `validate_plot_request`.
* The process state (the global `PLOTS` index plus the plots directory on
  disk) is `ServerState`; the three routes are state-transition functions.
  The nondeterministic inputs of a request — `uuid.uuid4()` and
  `datetime.utcnow()` — are passed in as oracle arguments, and the
  chart-rasterization library (an external black box per the spec) is a
  parameter `render` producing the bytes written to disk.
-/

/-- A decoded JSON-like value as seen by the Flask handlers.
`null` stands both for JSON `null` and for Python `None`
(e.g. the result of `request.get_json(silent=True)` on a malformed body).
An `obj` is a Python dict: an association list with distinct keys,
looked up by first match. -/
inductive JVal where
  | null
  | bool (b : Bool)
  | num (q : ℚ)
  | str (s : String)
  | arr (elems : List JVal)
  | obj (fields : List (String × JVal))

/-- Model of `isinstance(payload, dict)`. -/
def JVal.isObj : JVal → Bool
  | .obj _ => true
  | _ => false

/-- First-match lookup in an association list (a Python dict lookup;
dict keys are unique, so first match is the dict entry). -/
def assocGet {α : Type} (m : List (String × α)) (k : String) : Option α :=
  match m with
  | [] => none
  | (k', v) :: rest => if k' = k then some v else assocGet rest k

/-- Model of `d.get(k)`: the value at key `k`, or `None` when absent.
JSON `null` values and absent keys both come out as `JVal.null`. -/
def pyGet (fields : List (String × JVal)) (k : String) : JVal :=
  (assocGet fields k).getD .null

/-- Model of `d.get(k, default)`. -/
def pyGetD (fields : List (String × JVal)) (k : String) (d : JVal) : JVal :=
  (assocGet fields k).getD d

/-- Numeric value of a list of decimal digit characters. -/
def digitsVal (cs : List Char) : ℕ :=
  cs.foldl (fun acc c => 10 * acc + (c.toNat - '0'.toNat)) 0

/-- Python `float(s)` on a string, modelled for plain decimal literals:
an optional sign, then digits with at most one decimal point and at least
one digit (`"3"`, `"3.5"`, `".5"`, `"-3."`).  Whitespace, exponents,
underscores and `inf`/`nan` spellings are not modelled. -/
def parseDecimal (s : String) : Option ℚ :=
  let signed : ℤ × List Char :=
    match s.data with
    | '-' :: rest => (-1, rest)
    | '+' :: rest => (1, rest)
    | cs => (1, cs)
  let intPart := signed.2.takeWhile Char.isDigit
  let rest := signed.2.dropWhile Char.isDigit
  match rest with
  | [] =>
      if intPart.isEmpty then none
      else some (mkRat (signed.1 * digitsVal intPart) 1)
  | '.' :: frac =>
      if frac.all Char.isDigit && !(intPart.isEmpty && frac.isEmpty) then
        some (mkRat (signed.1 * (digitsVal intPart * 10 ^ frac.length + digitsVal frac))
          (10 ^ frac.length))
      else none
  | _ => none

/-- Python `float(v)`: numbers convert to themselves, booleans to 0/1,
numeric strings are parsed; `None`, lists and dicts raise `TypeError`
(and non-numeric strings raise `ValueError`), modelled as `none`. -/
def py_float : JVal → Option ℚ
  | .num q => some q
  | .bool b => some (if b then 1 else 0)
  | .str s => parseDecimal s
  | _ => none

/-- The list comprehension `[float(v) for v in l]` inside a
`try ... except (TypeError, ValueError)`: all conversions succeed or the
whole thing fails. -/
def floats_of : List JVal → Option (List ℚ)
  | [] => some []
  | v :: vs =>
      match py_float v with
      | none => none
      | some q =>
          match floats_of vs with
          | none => none
          | some qs => some (q :: qs)

/-- Python `str(v)` for the scalar values the metadata fields can hold.
The textual repr of lists and dicts is abbreviated (no validated claim
depends on it). -/
def py_str : JVal → String
  | .null => "None"
  | .bool b => if b then "True" else "False"
  | .num q => toString q
  | .str s => s
  | .arr _ => "[...]"
  | .obj _ => "\x7b...\x7d"

/-- The `meta` dict built by the validator: title and axis labels. -/
structure PlotMeta where
  title : String
  x_label : String
  y_label : String
deriving DecidableEq

/-- The `meta` dict: `str(payload.get("title", "Data Plot"))` and the labels. -/
def mkMeta (fields : List (String × JVal)) : PlotMeta :=
  { title := py_str (pyGetD fields "title" (.str "Data Plot"))
    x_label := py_str (pyGetD fields "x_label" (.str "Index"))
    y_label := py_str (pyGetD fields "y_label" (.str "Value")) }

/-- Result of `_validate_plot_request`: either
`(None, None, error_message)` or `(x_values, y_values, meta)`. -/
inductive ValidateResult where
  | error (msg : String)
  | ok (x_values y_values : List ℚ) (meta : PlotMeta)
deriving DecidableEq

/-- The validator `_validate_plot_request(payload)` of src/app.py, translated
clause by clause.  The `yx` pair models the `if isinstance(data, dict)`
assignment of `y` and `x`. -/
def validate_plot_request (payload : JVal) : ValidateResult :=
  match payload with
  | .obj fields =>
      match pyGet fields "data" with
      | .null => .error "missing 'data' field"
      | data =>
          let yx : JVal × JVal :=
            match data with
            | .obj dfields => (pyGet dfields "y", pyGet dfields "x")
            | _ => (data, .null)
          match yx.1 with
          | .arr ys =>
              if ys.length < 2 then
                .error "at least two data points are required"
              else if ys.length > 5000 then
                .error "data contains too many points (max 5000)"
              else
                match floats_of ys with
                | none => .error "all y values must be numeric"
                | some y_values =>
                    match yx.2 with
                    | .null =>
                        .ok ((List.range y_values.length).map Nat.cast)
                          y_values (mkMeta fields)
                    | .arr xs =>
                        if xs.length ≠ y_values.length then
                          .error "x and y must have the same length"
                        else
                          match floats_of xs with
                          | none => .error "all x values must be numeric"
                          | some x_values => .ok x_values y_values (mkMeta fields)
                    | _ => .error "'data.x' must be an array of numbers"
          | _ => .error "'data' or 'data.y' must be an array of numbers"
  | _ => .error "request body must be a json object"

/-! ### Spec-side validator

`validate_spec` is written from the words of spec §4.1 ("Rules, applied in
order (first failure wins)"), rule by rule, to be compared with the
code-side `validate_plot_request`. -/

/-- Rule 7 of the spec: the synthesized `x_values`, the integer sequence
`0..len(y)-1`. -/
def synthX (n : ℕ) : List ℚ :=
  (List.range n).map Nat.cast

/-- Rules 4–8 of spec §4.1, applied to the resolved `y` and `x` of rule 3
(`x` is `null` when absent). -/
def validate_spec_series (fields : List (String × JVal)) (y x : JVal) : ValidateResult :=
  match y with
  | .arr ys =>
      -- rule 5: 2 ≤ len(y) ≤ 5000, short message first
      if ys.length < 2 then .error "at least two data points are required"
      else if ys.length > 5000 then .error "data contains too many points (max 5000)"
      else
        -- rule 6: every y element convertible to float
        match floats_of ys with
        | none => .error "all y values must be numeric"
        | some y_values =>
            match x with
            | .null =>
                -- rule 7: x absent, synthesize 0..len(y)-1; rule 9: metadata
                .ok (synthX y_values.length) y_values (mkMeta fields)
            | .arr xs =>
                -- rule 8: x present, same length, every element numeric
                if xs.length ≠ y_values.length then
                  .error "x and y must have the same length"
                else
                  match floats_of xs with
                  | none => .error "all x values must be numeric"
                  | some x_values => .ok x_values y_values (mkMeta fields)
            | _ => .error "'data.x' must be an array of numbers"
  | _ =>
      -- rule 4: resolved y must be array-like
      .error "'data' or 'data.y' must be an array of numbers"

/-- Rules 1–3 of spec §4.1: payload must be an object holding a `data`
field, which is either a mapping with optional `y`/`x` sub-fields or a
flat array treated as `y` with no `x`. -/
def validate_spec (payload : JVal) : ValidateResult :=
  match payload with
  | .obj fields =>
      match pyGet fields "data" with
      | .null => .error "missing 'data' field"
      | .obj dfields => validate_spec_series fields (pyGet dfields "y") (pyGet dfields "x")
      | data => validate_spec_series fields data .null
  | _ => .error "request body must be a json object"

/-! ### Server state and routes -/

/-- One entry of the `PLOTS` index: `{ "path": ..., "created_at": ... }`. -/
structure PlotRecord where
  path : String
  created_at : String
deriving DecidableEq

/-- The mutable process state: the global `PLOTS` dict and the plots
directory on disk, modelled as a map from file path to file bytes. -/
structure ServerState where
  plots : List (String × PlotRecord)
  files : List (String × List ℕ)
deriving DecidableEq

/-- The state at process start: empty index, empty plots directory. -/
def initialState : ServerState := ⟨[], []⟩

/-- Python dict assignment `m[k] = v`: replaces the binding when the key is
present, otherwise appends a new one. -/
def assocSet {α : Type} (m : List (String × α)) (k : String) (v : α) : List (String × α) :=
  match m with
  | [] => [(k, v)]
  | (k', v') :: rest => if k' = k then (k, v) :: rest else (k', v') :: assocSet rest k v

/-- Model of `os.path.exists(p)` against the modelled plots directory.  The empty
path never exists (as in Python). -/
def os_path_exists (files : List (String × List ℕ)) (p : String) : Bool :=
  p ≠ "" && (assocGet files p).isSome

/-- The configured plots directory `PLOTS_DIR`.  The environment override
of `PLOT_SERVICE_DIR` is a deployment detail; the default is used. -/
def PLOTS_DIR : String := "plots"

/-- Model of `os.path.join(a, b)` for a directory `a` with no trailing separator and
a relative file name `b`. -/
def path_join (a b : String) : String := a ++ "/" ++ b

/-- An HTTP response body: JSON, or a file sent with `send_file`. -/
inductive Body where
  | json (v : JVal)
  | file (bytes : List ℕ) (mimetype : String) (download_name : String)

/-- An HTTP response: status code plus body. -/
structure Response where
  code : ℕ
  body : Body

/-- The uniform error envelope `{"status": "error", "message": msg}`. -/
def errBody (msg : String) : JVal :=
  .obj [("status", .str "error"), ("message", .str msg)]

/-- Handler of `GET /health`. -/
def health (st : ServerState) : Response × ServerState :=
  (⟨200, .json (.obj [("status", .str "ok"),
                      ("service", .str "data-plot-visualizer"),
                      ("stored_plots", .num st.plots.length)])⟩, st)

/-- The generator `_generate_plot_file(x_values, y_values, meta)`: renders the chart
bytes, writes them at `PLOTS_DIR/<plot_id>.png`, records the plot in
`PLOTS`, and returns `(plot_id, file_path, created_at)`.  `plot_id`
(`uuid.uuid4()`) and `created_at` (`datetime.utcnow()`) are oracle inputs;
`render` is the black-box charting library. -/
def generate_plot_file (render : List ℚ → List ℚ → PlotMeta → List ℕ)
    (plot_id created_at : String) (x_values y_values : List ℚ) (meta : PlotMeta)
    (st : ServerState) : (String × String × String) × ServerState :=
  let file_path := path_join PLOTS_DIR (plot_id ++ ".png")
  ((plot_id, file_path, created_at),
   ⟨assocSet st.plots plot_id ⟨file_path, created_at⟩,
    assocSet st.files file_path (render x_values y_values meta)⟩)

/-- Handler of `POST /plots`.  `is_json` is `request.is_json` (the content type says
JSON); `payload` is `request.get_json(silent=True)` with `None` for an
undecodable body. -/
def create_plot (render : List ℚ → List ℚ → PlotMeta → List ℕ)
    (st : ServerState) (is_json : Bool) (payload : JVal)
    (plot_id created_at : String) : Response × ServerState :=
  if !is_json then
    (⟨400, .json (errBody "expected json body")⟩, st)
  else
    match validate_plot_request payload with
    | .error msg => (⟨400, .json (errBody msg)⟩, st)
    | .ok x_values y_values meta =>
        let r := generate_plot_file render plot_id created_at x_values y_values meta st
        (⟨200, .json (.obj [("status", .str "ok"),
                            ("plot_id", .str r.1.1),
                            ("created_at", .str r.1.2.2),
                            ("image_path", .str r.1.2.1)])⟩, r.2)

/-- Handler of `GET /plots/<plot_id>`. -/
def download_plot (st : ServerState) (plot_id : String) : Response × ServerState :=
  match assocGet st.plots plot_id with
  | none =>
      (⟨404, .json (errBody ("plot '" ++ plot_id ++ "' not found"))⟩, st)
  | some info =>
      if info.path = "" || !(os_path_exists st.files info.path) then
        (⟨500, .json (errBody "plot file is missing or unavailable")⟩, st)
      else
        (⟨200, .file ((assocGet st.files info.path).getD [])
            "image/png" ("plot-" ++ plot_id ++ ".png")⟩, st)

/-- A request to the service, with the nondeterministic inputs of its
handling (fresh uuid, current time) attached as oracle data. -/
inductive Request where
  | health
  | createPlot (is_json : Bool) (payload : JVal) (plot_id created_at : String)
  | downloadPlot (plot_id : String)

/-- Dispatch one request. -/
def step (render : List ℚ → List ℚ → PlotMeta → List ℕ)
    (st : ServerState) : Request → Response × ServerState
  | .health => health st
  | .createPlot is_json payload plot_id created_at =>
      create_plot render st is_json payload plot_id created_at
  | .downloadPlot plot_id => download_plot st plot_id

/-- Run a sequence of requests, threading the state. -/
def run (render : List ℚ → List ℚ → PlotMeta → List ℕ)
    (st : ServerState) : List Request → ServerState
  | [] => st
  | r :: rs => run render (step render st r).2 rs

/-- Whether a request is a `POST /plots` that succeeds (JSON content type
and a payload the validator accepts); success depends only on the
request. -/
def createSucceeds : Request → Bool
  | .createPlot is_json payload _ _ =>
      is_json &&
        (match validate_plot_request payload with
         | .ok _ _ _ => true
         | .error _ => false)
  | _ => false

/-- Number of successful `POST /plots` calls in a trace. -/
def successCount (rs : List Request) : ℕ :=
  (rs.filter createSucceeds).length

/-- The generated identifiers of all `POST /plots` requests of a trace. -/
def createIds : List Request → List String
  | [] => []
  | .createPlot _ _ plot_id _ :: rs => plot_id :: createIds rs
  | _ :: rs => createIds rs


/-- Payloads whose `data` carries no x values: a flat array, or a mapping
without an `"x"` key. -/
def payload_has_no_x : JVal → Prop
  | .obj fields =>
      match pyGet fields "data" with
      | .obj dfields => assocGet dfields "x" = none
      | .arr _ => True
      | _ => False
  | _ => False

/-- A concrete instance of the black-box charting library, used to
instantiate universally quantified theorems at concrete states. -/
def trivialRender : List ℚ → List ℚ → PlotMeta → List ℕ :=
  fun _ _ _ => []

/-! ### Lemmas -/

theorem validate_plot_request_eq_spec (p : JVal) :
    validate_plot_request p = validate_spec p := by
  cases p <;> try rfl
  case obj fields =>
    simp only [validate_plot_request, validate_spec]
    cases h : pyGet fields "data" <;> simp only [h] <;> rfl

theorem floats_of_length {l : List JVal} {l' : List ℚ} (h : floats_of l = some l') :
    l'.length = l.length := by
  induction l generalizing l' with
  | nil => simp [floats_of] at h; simp [← h]
  | cons v vs ih =>
      unfold floats_of at h
      cases hv : py_float v with
      | none => rw [hv] at h; exact absurd h (by simp)
      | some q =>
          rw [hv] at h
          cases hvs : floats_of vs with
          | none => rw [hvs] at h; exact absurd h (by simp)
          | some qs =>
              rw [hvs] at h
              simp at h
              simp [← h, ih hvs]

theorem floats_of_eq_none_iff {l : List JVal} :
    floats_of l = none ↔ ∃ v ∈ l, py_float v = none := by
  induction l with
  | nil => simp [floats_of]
  | cons v vs ih =>
      unfold floats_of
      cases hv : py_float v with
      | none => simp [hv]
      | some q =>
          cases hvs : floats_of vs with
          | none => simp [hv, hvs, ih.mp hvs]
          | some qs =>
              simp [hv, hvs]
              intro w hw
              have h2 := ih.not.mp (by simp [hvs])
              push_neg at h2
              exact h2 w hw

theorem series_ok_lengths {fields : List (String × JVal)} {y x : JVal}
    {xv yv : List ℚ} {m : PlotMeta}
    (h : validate_spec_series fields y x = .ok xv yv m) :
    xv.length = yv.length ∧ 2 ≤ yv.length ∧ yv.length ≤ 5000 := by
  unfold validate_spec_series at h
  split at h
  case h_2 => exact absurd h (by simp)
  case h_1 ys =>
    split at h
    · exact absurd h (by simp)
    · split at h
      · exact absurd h (by simp)
      · rename_i h2 h5000
        split at h
        case h_1 => exact absurd h (by simp)
        case h_2 y_values hys =>
          have hylen : y_values.length = ys.length := floats_of_length hys
          split at h
          case h_1 =>
            simp only [ValidateResult.ok.injEq] at h
            obtain ⟨hx, hy, hm⟩ := h
            subst hy
            constructor
            · rw [← hx]
              simp only [synthX, List.length_map, List.length_range]
            · omega
          case h_2 xs =>
            split at h
            · exact absurd h (by simp)
            · rename_i hlen
              split at h
              case h_1 => exact absurd h (by simp)
              case h_2 x_values hxs =>
                simp only [ValidateResult.ok.injEq] at h
                obtain ⟨hx, hy, hm⟩ := h
                subst hy
                have := floats_of_length hxs
                constructor
                · rw [← hx, this]
                  omega
                · omega
          case h_3 => exact absurd h (by simp)

theorem series_null_x_ok {fields : List (String × JVal)} {y : JVal}
    {xv yv : List ℚ} {m : PlotMeta}
    (h : validate_spec_series fields y .null = .ok xv yv m) :
    xv = (List.range yv.length).map Nat.cast := by
  unfold validate_spec_series at h
  split at h
  case h_2 => exact absurd h (by simp)
  case h_1 ys =>
    split at h
    · exact absurd h (by simp)
    · split at h
      · exact absurd h (by simp)
      · split at h
        case h_1 => exact absurd h (by simp)
        case h_2 y_values hys =>
          simp only [ValidateResult.ok.injEq] at h
          obtain ⟨hx, hy, hm⟩ := h
          subst hy
          rw [← hx]
          rfl

theorem series_y_numeric_iff (fields : List (String × JVal)) (ys : List JVal)
    (h2 : 2 ≤ ys.length) (h5 : ys.length ≤ 5000) :
    (validate_spec_series fields (.arr ys) .null = .error "all y values must be numeric")
      ↔ ∃ v ∈ ys, py_float v = none := by
  simp only [validate_spec_series]
  rw [if_neg (by omega), if_neg (by omega)]
  cases hys : floats_of ys with
  | none =>
      simp only []
      exact ⟨fun _ => floats_of_eq_none_iff.mp hys, fun _ => trivial⟩
  | some yv =>
      simp only []
      constructor
      · intro hcontra; exact absurd hcontra (by simp)
      · intro hex
        have hnone := floats_of_eq_none_iff.mpr hex
        rw [hys] at hnone
        exact absurd hnone (by simp)

theorem series_x_numeric_iff (fields : List (String × JVal)) (ys xs : List JVal)
    {yv : List ℚ}
    (h2 : 2 ≤ ys.length) (h5 : ys.length ≤ 5000) (hlen : xs.length = ys.length)
    (hys : floats_of ys = some yv) :
    (validate_spec_series fields (.arr ys) (.arr xs) = .error "all x values must be numeric")
      ↔ ∃ v ∈ xs, py_float v = none := by
  simp only [validate_spec_series]
  rw [if_neg (by omega), if_neg (by omega), hys]
  simp only []
  have hxy : ¬(xs.length ≠ yv.length) := by
    rw [floats_of_length hys]; omega
  rw [if_neg hxy]
  cases hxs : floats_of xs with
  | none =>
      simp only []
      exact ⟨fun _ => floats_of_eq_none_iff.mp hxs, fun _ => trivial⟩
  | some xvv =>
      simp only []
      constructor
      · intro hcontra; exact absurd hcontra (by simp)
      · intro hex
        have hnone := floats_of_eq_none_iff.mpr hex
        rw [hxs] at hnone
        exact absurd hnone (by simp)

theorem assocGet_assocSet_self {α : Type} (m : List (String × α)) (k : String) (v : α) :
    assocGet (assocSet m k v) k = some v := by
  induction m with
  | nil => simp [assocSet, assocGet]
  | cons p rest ih =>
      obtain ⟨k', v'⟩ := p
      unfold assocSet
      by_cases h : k' = k
      · simp [h, assocGet]
      · simp only [if_neg h]
        unfold assocGet
        rw [if_neg h]
        exact ih

theorem assocGet_assocSet_ne {α : Type} (m : List (String × α)) (k k' : String) (v : α)
    (h : k' ≠ k) : assocGet (assocSet m k' v) k = assocGet m k := by
  induction m with
  | nil => simp [assocSet, assocGet, if_neg h]
  | cons p rest ih =>
      obtain ⟨k'', v''⟩ := p
      unfold assocSet
      by_cases h2 : k'' = k'
      · subst h2
        unfold assocSet
        rw [if_pos rfl]
        unfold assocGet
        rw [if_neg h, if_neg h]
      · simp only [if_neg h2]
        unfold assocGet
        by_cases h3 : k'' = k
        · rw [if_pos h3, if_pos h3]
        · rw [if_neg h3, if_neg h3]
          exact ih

theorem length_assocSet_of_none {α : Type} (m : List (String × α)) (k : String) (v : α)
    (h : assocGet m k = none) : (assocSet m k v).length = m.length + 1 := by
  induction m with
  | nil => simp [assocSet]
  | cons p rest ih =>
      obtain ⟨k', v'⟩ := p
      unfold assocGet at h
      by_cases h2 : k' = k
      · rw [if_pos h2] at h; exact absurd h (by simp)
      · rw [if_neg h2] at h
        unfold assocSet
        rw [if_neg h2]
        simp [ih h]

theorem download_plot_preserves_state (st : ServerState) (plot_id : String) :
    (download_plot st plot_id).2 = st := by
  unfold download_plot
  split
  · rfl
  · split <;> rfl

theorem successCount_cons (r : Request) (rs : List Request) :
    successCount (r :: rs) =
      (if createSucceeds r then 1 else 0) + successCount rs := by
  unfold successCount
  rw [List.filter_cons]
  · split
    · simp
      omega
    · simp

theorem run_plots_length (render : List ℚ → List ℚ → PlotMeta → List ℕ) :
    ∀ (rs : List Request) (st : ServerState),
      (createIds rs).Pairwise (fun a b => a ≠ b) →
      (∀ pid ∈ createIds rs, assocGet st.plots pid = none) →
      (run render st rs).plots.length = st.plots.length + successCount rs := by
  intro rs
  induction rs with
  | nil => intro st _ _; simp [run, successCount]
  | cons r rs ih =>
      intro st hpw hfresh
      cases r with
      | health =>
          rw [show run render st (Request.health :: rs) = run render st rs from rfl]
          rw [successCount_cons]
          simp only [createSucceeds, if_false]
          rw [ih st (by simpa [createIds] using hpw) (by simpa [createIds] using hfresh)]
          simp
      | downloadPlot pid =>
          rw [show run render st (Request.downloadPlot pid :: rs) =
                run render (download_plot st pid).2 rs from rfl]
          rw [download_plot_preserves_state, successCount_cons]
          simp only [createSucceeds, if_false]
          rw [ih st (by simpa [createIds] using hpw) (by simpa [createIds] using hfresh)]
          simp
      | createPlot ij p pid ca =>
          have hpwcons : List.Pairwise (fun a b => a ≠ b) (pid :: createIds rs) := hpw
          have hpwc := List.pairwise_cons.mp hpwcons
          have hfresh0 : assocGet st.plots pid = none :=
            hfresh pid (by simp [createIds])
          have hfreshtl : ∀ q ∈ createIds rs, assocGet st.plots q = none :=
            fun q hq => hfresh q (by simp [createIds, hq])
          rw [show run render st (Request.createPlot ij p pid ca :: rs) =
                run render (create_plot render st ij p pid ca).2 rs from rfl]
          rw [successCount_cons]
          cases ij with
          | false =>
              simp only [createSucceeds, Bool.false_and, if_false]
              rw [show (create_plot render st false p pid ca).2 = st from rfl]
              rw [ih st hpwc.2 hfreshtl]
              simp
          | true =>
              cases hv : validate_plot_request p with
              | error msg =>
                  have hstate : (create_plot render st true p pid ca).2 = st := by
                    unfold create_plot
                    rw [hv]
                    rfl
                  have hcnt : createSucceeds (Request.createPlot true p pid ca) = false := by
                    simp [createSucceeds, hv]
                  rw [hstate, hcnt, if_neg (by simp), ih st hpwc.2 hfreshtl]
                  simp
              | ok xv yv m =>
                  have hstate : (create_plot render st true p pid ca).2 =
                      ⟨assocSet st.plots pid
                         ⟨path_join PLOTS_DIR (pid ++ ".png"), ca⟩,
                       assocSet st.files (path_join PLOTS_DIR (pid ++ ".png"))
                         (render xv yv m)⟩ := by
                    unfold create_plot
                    rw [hv]
                    rfl
                  have hcnt : createSucceeds (Request.createPlot true p pid ca) = true := by
                    simp [createSucceeds, hv]
                  rw [hstate, hcnt, if_pos rfl]
                  set st' : ServerState :=
                    ⟨assocSet st.plots pid ⟨path_join PLOTS_DIR (pid ++ ".png"), ca⟩,
                     assocSet st.files (path_join PLOTS_DIR (pid ++ ".png"))
                       (render xv yv m)⟩ with hst'
                  have hfresh' : ∀ q ∈ createIds rs, assocGet st'.plots q = none := by
                    intro q hq
                    rw [hst']
                    show assocGet (assocSet st.plots pid _) q = none
                    rw [assocGet_assocSet_ne _ q pid _ (hpwc.1 q hq)]
                    exact hfreshtl q hq
                  rw [ih st' hpwc.2 hfresh']
                  rw [hst']
                  show (assocSet st.plots pid _).length + _ = _
                  rw [length_assocSet_of_none st.plots pid _ hfresh0]
                  omega

/-! ### Claims -/

/-- C1: the validator applies the validation rules in the spec's stated
order and returns the error of the first failing rule (it refines the
rule-by-rule spec validator); in particular a `y` of more than 5000
non-numeric elements is rejected for its length, not its contents. -/
theorem C1_validation_rule_order :
    (∀ p : JVal, validate_plot_request p = validate_spec p) ∧
    validate_plot_request (.obj [("data", .arr (List.replicate 5001 .null))]) =
      .error "data contains too many points (max 5000)" := by
  refine ⟨validate_plot_request_eq_spec, ?_⟩
  rw [validate_plot_request_eq_spec]
  show validate_spec_series [("data", .arr (List.replicate 5001 .null))]
      (.arr (List.replicate 5001 .null)) .null = _
  simp only [validate_spec_series]
  rw [List.length_replicate]
  norm_num

/-- C2: whenever validation succeeds, the returned `x_values` and
`y_values` have equal length, which lies between 2 and 5000. -/
theorem C2_validated_lengths (p : JVal) (xv yv : List ℚ) (m : PlotMeta)
    (h : validate_plot_request p = .ok xv yv m) :
    xv.length = yv.length ∧ 2 ≤ yv.length ∧ yv.length ≤ 5000 := by
  rw [validate_plot_request_eq_spec] at h
  cases p with
  | obj fields =>
      simp only [validate_spec] at h
      cases hd : pyGet fields "data" <;> rw [hd] at h <;>
        first
        | exact series_ok_lengths h
        | exact absurd h (by simp)
  | null => exact absurd h (by simp [validate_spec])
  | bool b => exact absurd h (by simp [validate_spec])
  | num q => exact absurd h (by simp [validate_spec])
  | str s => exact absurd h (by simp [validate_spec])
  | arr l => exact absurd h (by simp [validate_spec])

/-- Witness for C2 at a concrete validated payload. -/
theorem C2_validated_lengths_witness :
    ([0, 1] : List ℚ).length = ([1, 2] : List ℚ).length ∧
    2 ≤ ([1, 2] : List ℚ).length ∧ ([1, 2] : List ℚ).length ≤ 5000 :=
  C2_validated_lengths (.obj [("data", .arr [.num 1, .num 2])]) [0, 1] [1, 2]
    ⟨"Data Plot", "Index", "Value"⟩ (by decide)

/-- C5: a payload that fails validation makes `POST /plots` return 400
with the validator's message, and leaves the whole server state (index
and files) unchanged. -/
theorem C5_validation_failure_pure (render : List ℚ → List ℚ → PlotMeta → List ℕ)
    (st : ServerState) (payload : JVal) (plot_id created_at msg : String)
    (h : validate_plot_request payload = .error msg) :
    create_plot render st true payload plot_id created_at =
      (⟨400, .json (errBody msg)⟩, st) := by
  unfold create_plot
  rw [h]
  rfl

/-- Witness for C5 at a concrete invalid payload. -/
theorem C5_validation_failure_pure_witness :
    validate_plot_request (.obj [("data", .arr [.num 1])]) =
      .error "at least two data points are required" ∧
    create_plot trivialRender initialState true (.obj [("data", .arr [.num 1])]) "id0" "t0" =
      (⟨400, .json (errBody "at least two data points are required")⟩, initialState) :=
  ⟨by decide,
   C5_validation_failure_pure trivialRender initialState (.obj [("data", .arr [.num 1])])
     "id0" "t0" "at least two data points are required" (by decide)⟩

/-- C6: when validation succeeds and the payload carries no x values,
`x_values` is the integer sequence `0..len(y)-1`, of the same length as
`y_values`. -/
theorem C6_synthesized_x (p : JVal) (xv yv : List ℚ) (m : PlotMeta)
    (hno : payload_has_no_x p) (h : validate_plot_request p = .ok xv yv m) :
    xv = (List.range yv.length).map Nat.cast ∧ xv.length = yv.length := by
  rw [validate_plot_request_eq_spec] at h
  cases p with
  | obj fields =>
      simp only [validate_spec] at h
      simp only [payload_has_no_x] at hno
      cases hd : pyGet fields "data" with
      | null => rw [hd] at h; exact absurd h (by simp)
      | obj dfields =>
          rw [hd] at h
          rw [hd] at hno
          have h2 : validate_spec_series fields (pyGet dfields "y") (pyGet dfields "x") =
              .ok xv yv m := h
          have hx : pyGet dfields "x" = .null := by
            unfold pyGet
            rw [show assocGet dfields "x" = none from hno]
            rfl
          rw [hx] at h2
          have hxv := series_null_x_ok h2
          refine ⟨hxv, ?_⟩
          rw [hxv]
          simp [List.length_map, List.length_range]
      | arr l =>
          rw [hd] at h
          have hxv := series_null_x_ok h
          refine ⟨hxv, ?_⟩
          rw [hxv]
          simp [List.length_map, List.length_range]
      | bool b => rw [hd] at hno; exact hno.elim
      | num q => rw [hd] at hno; exact hno.elim
      | str s => rw [hd] at hno; exact hno.elim
  | null => exact hno.elim
  | bool b => exact hno.elim
  | num q => exact hno.elim
  | str s => exact hno.elim
  | arr l => exact hno.elim

/-- Witness for C6 at a concrete flat-array payload. -/
theorem C6_synthesized_x_witness :
    ([0, 1] : List ℚ) = (List.range ([1, 2] : List ℚ).length).map Nat.cast ∧
    ([0, 1] : List ℚ).length = ([1, 2] : List ℚ).length :=
  C6_synthesized_x (.obj [("data", .arr [.num 1, .num 2])]) [0, 1] [1, 2]
    ⟨"Data Plot", "Index", "Value"⟩ trivial (by decide)

/-- C8: with a JSON content type but a body that does not decode to a
JSON object (`get_json(silent=True)` gives `None`, or an array/scalar),
`POST /plots` returns 400 with "request body must be a json object" and
changes nothing. -/
theorem C8_non_object_body (render : List ℚ → List ℚ → PlotMeta → List ℕ)
    (st : ServerState) (payload : JVal) (plot_id created_at : String)
    (h : payload.isObj = false) :
    create_plot render st true payload plot_id created_at =
      (⟨400, .json (errBody "request body must be a json object")⟩, st) := by
  have hv : validate_plot_request payload = .error "request body must be a json object" := by
    cases payload <;> first | rfl | exact absurd h (by simp [JVal.isObj])
  unfold create_plot
  rw [hv]
  rfl

/-- Witness for C8 at `None` (a malformed JSON body). -/
theorem C8_non_object_body_witness :
    JVal.null.isObj = false ∧
    create_plot trivialRender initialState true .null "id0" "t0" =
      (⟨400, .json (errBody "request body must be a json object")⟩, initialState) :=
  ⟨rfl, C8_non_object_body trivialRender initialState .null "id0" "t0" rfl⟩

/-- C9: once the earlier checks pass, the numeric errors occur exactly
when the float conversion of some element fails; float conversion accepts
numeric strings and booleans, so an array of numeric strings validates
with the parsed values. -/
theorem C9_float_conversion :
    (∀ ys : List JVal, 2 ≤ ys.length → ys.length ≤ 5000 →
      (validate_plot_request (.obj [("data", .arr ys)]) =
          .error "all y values must be numeric" ↔ ∃ v ∈ ys, py_float v = none)) ∧
    (∀ (ys xs : List JVal) (yv : List ℚ), 2 ≤ ys.length → ys.length ≤ 5000 →
      xs.length = ys.length → floats_of ys = some yv →
      (validate_plot_request (.obj [("data", .obj [("y", .arr ys), ("x", .arr xs)])]) =
          .error "all x values must be numeric" ↔ ∃ v ∈ xs, py_float v = none)) ∧
    validate_plot_request (.obj [("data", .arr [.str "2", .str "3.5", .bool true])]) =
      .ok [0, 1, 2] [2, mkRat 7 2, 1] ⟨"Data Plot", "Index", "Value"⟩ := by
  refine ⟨?_, ?_, by decide⟩
  · intro ys h2 h5
    rw [validate_plot_request_eq_spec]
    show validate_spec_series [("data", .arr ys)] (.arr ys) .null = _ ↔ _
    exact series_y_numeric_iff _ ys h2 h5
  · intro ys xs yv h2 h5 hlen hys
    rw [validate_plot_request_eq_spec]
    show validate_spec_series [("data", .obj [("y", .arr ys), ("x", .arr xs)])]
        (.arr ys) (.arr xs) = _ ↔ _
    exact series_x_numeric_iff _ ys xs h2 h5 hlen hys

/-- Witness for C9: both quantified conjuncts applied at concrete arrays. -/
theorem C9_float_conversion_witness :
    (validate_plot_request (.obj [("data", .arr [JVal.null, JVal.null])]) =
        .error "all y values must be numeric" ↔
      ∃ v ∈ [JVal.null, JVal.null], py_float v = none) ∧
    (validate_plot_request
          (.obj [("data", .obj [("y", .arr [.num 1, .num 2]),
                                ("x", .arr [JVal.null, .num 3])])]) =
        .error "all x values must be numeric" ↔
      ∃ v ∈ [JVal.null, JVal.num 3], py_float v = none) :=
  ⟨C9_float_conversion.1 [JVal.null, JVal.null] (by decide) (by decide),
   C9_float_conversion.2.1 [JVal.num 1, JVal.num 2] [JVal.null, JVal.num 3] [1, 2]
     (by decide) (by decide) (by decide) (by decide)⟩

/-- C3: after any request trace with pairwise-distinct generated
identifiers, the index size equals the number of successful
`POST /plots` calls, and `GET /health` returns 200 with that count as
`stored_plots`. -/
theorem C3_health_stored_plots (render : List ℚ → List ℚ → PlotMeta → List ℕ)
    (rs : List Request) (h : (createIds rs).Pairwise (fun a b => a ≠ b)) :
    (run render initialState rs).plots.length = successCount rs ∧
    (step render (run render initialState rs) .health).1 =
      ⟨200, .json (.obj [("status", .str "ok"),
                         ("service", .str "data-plot-visualizer"),
                         ("stored_plots", .num (successCount rs))])⟩ := by
  have hlen := run_plots_length render rs initialState h (fun pid _ => rfl)
  rw [show initialState.plots.length = 0 from rfl, Nat.zero_add] at hlen
  refine ⟨hlen, ?_⟩
  show (health (run render initialState rs)).1 = _
  unfold health
  rw [hlen]

/-- Witness for C3 on a concrete five-request trace with two successful
generations. -/
theorem C3_health_stored_plots_witness :
    (createIds [Request.createPlot true (.obj [("data", .arr [.num 1, .num 2])]) "a" "t1",
                Request.health,
                Request.createPlot true .null "b" "t2",
                Request.downloadPlot "zzz",
                Request.createPlot true (.obj [("data", .arr [.num 3, .num 4])]) "c" "t3"]).Pairwise
        (fun a b => a ≠ b) ∧
    (run trivialRender initialState
        [Request.createPlot true (.obj [("data", .arr [.num 1, .num 2])]) "a" "t1",
         Request.health,
         Request.createPlot true .null "b" "t2",
         Request.downloadPlot "zzz",
         Request.createPlot true (.obj [("data", .arr [.num 3, .num 4])]) "c" "t3"]).plots.length =
      successCount
        [Request.createPlot true (.obj [("data", .arr [.num 1, .num 2])]) "a" "t1",
         Request.health,
         Request.createPlot true .null "b" "t2",
         Request.downloadPlot "zzz",
         Request.createPlot true (.obj [("data", .arr [.num 3, .num 4])]) "c" "t3"] :=
  ⟨by decide,
   (C3_health_stored_plots trivialRender
     [Request.createPlot true (.obj [("data", .arr [.num 1, .num 2])]) "a" "t1",
      Request.health,
      Request.createPlot true .null "b" "t2",
      Request.downloadPlot "zzz",
      Request.createPlot true (.obj [("data", .arr [.num 3, .num 4])]) "c" "t3"]
     (by decide)).1⟩

/-- C4: `GET /plots/{id}` fails in exactly two ways — 404 when the id is
not indexed, 500 when it is indexed but the recorded path is not on
disk — both with the `{status: "error", message}` envelope; when the
file exists the response is 200. -/
theorem C4_download_failure_modes (st : ServerState) (plot_id : String) :
    (assocGet st.plots plot_id = none →
      download_plot st plot_id =
        (⟨404, .json (errBody ("plot '" ++ plot_id ++ "' not found"))⟩, st)) ∧
    (∀ info, assocGet st.plots plot_id = some info →
      os_path_exists st.files info.path = false →
      download_plot st plot_id =
        (⟨500, .json (errBody "plot file is missing or unavailable")⟩, st)) ∧
    (∀ info, assocGet st.plots plot_id = some info →
      os_path_exists st.files info.path = true →
      (download_plot st plot_id).1.code = 200) := by
  refine ⟨?_, ?_, ?_⟩
  · intro h
    unfold download_plot
    rw [h]
  · intro info h hex
    unfold download_plot
    rw [h]
    show (if info.path = "" || !(os_path_exists st.files info.path) then _ else _) = _
    rw [hex]
    simp
  · intro info h hex
    have hne : info.path ≠ "" := by
      intro hp
      unfold os_path_exists at hex
      rw [hp] at hex
      simp at hex
    unfold download_plot
    rw [h]
    show (if info.path = "" || !(os_path_exists st.files info.path) then
            ((⟨500, .json (errBody "plot file is missing or unavailable")⟩ : Response), st)
          else
            (⟨200, .file ((assocGet st.files info.path).getD [])
                "image/png" ("plot-" ++ plot_id ++ ".png")⟩, st)).1.code = 200
    rw [hex]
    simp [hne]

/-- Witness for C4: the three cases at concrete states. -/
theorem C4_download_failure_modes_witness :
    download_plot ⟨[("a", ⟨"plots/a.png", "t"⟩)], [("plots/a.png", [7])]⟩ "b" =
      (⟨404, .json (errBody "plot 'b' not found")⟩,
       ⟨[("a", ⟨"plots/a.png", "t"⟩)], [("plots/a.png", [7])]⟩) ∧
    download_plot ⟨[("a", ⟨"plots/a.png", "t"⟩)], []⟩ "a" =
      (⟨500, .json (errBody "plot file is missing or unavailable")⟩,
       ⟨[("a", ⟨"plots/a.png", "t"⟩)], []⟩) ∧
    (download_plot ⟨[("a", ⟨"plots/a.png", "t"⟩)], [("plots/a.png", [7])]⟩ "a").1.code = 200 :=
  ⟨(C4_download_failure_modes ⟨[("a", ⟨"plots/a.png", "t"⟩)], [("plots/a.png", [7])]⟩ "b").1
     (by decide),
   (C4_download_failure_modes ⟨[("a", ⟨"plots/a.png", "t"⟩)], []⟩ "a").2.1
     ⟨"plots/a.png", "t"⟩ (by decide) (by decide),
   (C4_download_failure_modes ⟨[("a", ⟨"plots/a.png", "t"⟩)], [("plots/a.png", [7])]⟩ "a").2.2
     ⟨"plots/a.png", "t"⟩ (by decide) (by decide)⟩

/-- C7: `GET /plots/{id}` never mutates the index or the stored files;
repeating it on the resulting state returns the identical response and
state. -/
theorem C7_download_idempotent (st : ServerState) (plot_id : String) :
    (download_plot st plot_id).2 = st ∧
    download_plot (download_plot st plot_id).2 plot_id = download_plot st plot_id := by
  refine ⟨download_plot_preserves_state st plot_id, ?_⟩
  rw [download_plot_preserves_state st plot_id]

/-- C10: on a successful `POST /plots`, the returned `plot_id`,
`image_path` and `created_at` are exactly what the index records. -/
theorem C10_response_matches_index (render : List ℚ → List ℚ → PlotMeta → List ℕ)
    (st : ServerState) (payload : JVal) (plot_id created_at : String)
    (xv yv : List ℚ) (m : PlotMeta)
    (h : validate_plot_request payload = .ok xv yv m) :
    (create_plot render st true payload plot_id created_at).1 =
      ⟨200, .json (.obj [("status", .str "ok"),
                         ("plot_id", .str plot_id),
                         ("created_at", .str created_at),
                         ("image_path", .str (path_join PLOTS_DIR (plot_id ++ ".png")))])⟩ ∧
    assocGet (create_plot render st true payload plot_id created_at).2.plots plot_id =
      some ⟨path_join PLOTS_DIR (plot_id ++ ".png"), created_at⟩ := by
  unfold create_plot
  rw [h]
  refine ⟨rfl, ?_⟩
  show assocGet (assocSet st.plots plot_id
      ⟨path_join PLOTS_DIR (plot_id ++ ".png"), created_at⟩) plot_id = _
  rw [assocGet_assocSet_self]

/-- Witness for C10 at a concrete successful request. -/
theorem C10_response_matches_index_witness :
    (create_plot trivialRender initialState true
        (.obj [("data", .arr [.num 1, .num 2])]) "id1" "t1").1 =
      ⟨200, .json (.obj [("status", .str "ok"),
                         ("plot_id", .str "id1"),
                         ("created_at", .str "t1"),
                         ("image_path", .str (path_join PLOTS_DIR ("id1" ++ ".png")))])⟩ ∧
    assocGet (create_plot trivialRender initialState true
        (.obj [("data", .arr [.num 1, .num 2])]) "id1" "t1").2.plots "id1" =
      some ⟨path_join PLOTS_DIR ("id1" ++ ".png"), "t1"⟩ :=
  C10_response_matches_index trivialRender initialState
    (.obj [("data", .arr [.num 1, .num 2])]) "id1" "t1" [0, 1] [1, 2]
    ⟨"Data Plot", "Index", "Value"⟩ (by decide)
